import Mathlib

/-!
Verification of the scheduling and broadcast core of a community-management
messaging bot (sources: `bot/utils.py`, `bot/commands.py`, `bot/database.py`,
`bot/scheduler.py`).  The Python code is shallowly embedded: pure helpers
become Lean functions on `String`/`Nat`/`Int`, the MongoDB settings document
becomes an explicit record with optional fields, the job queue becomes a list
of named jobs, and Telegram conversation handlers become step functions from
input to (stored data, next conversation state).
-/

namespace CommunityBot

/-! ## Python string primitives

Models of the Python string operations used by the bot, restricted to the
ASCII behaviour exercised by the code (`str.split`, `str.strip`,
`str.upper`, `int(...)`, f-string `{n:02d}` padding). -/

def isDigitChar (c : Char) : Bool := '0' ≤ c && c ≤ '9'

def digitVal (c : Char) : Nat := c.toNat - '0'.toNat

/-- ASCII whitespace, as matched by Python's `\s` and stripped by `str.strip()`. -/
def isSpaceChar (c : Char) : Bool :=
  c = ' ' || c = '\t' || c = '\n' || c = '\x0d' || c = '\x0b' || c = '\x0c'

/-- Python `str.strip()` (ASCII whitespace). -/
def pyStrip (s : String) : String :=
  String.mk (((s.toList.dropWhile isSpaceChar).reverse.dropWhile isSpaceChar).reverse)

/-- Python `str.upper()` (ASCII letters). -/
def pyUpper (s : String) : String :=
  String.mk (s.toList.map Char.toUpper)

def natOfDigits (ds : List Char) : Nat :=
  ds.foldl (fun acc c => 10 * acc + digitVal c) 0

/-- Python `str.split(sep)` for a one-character separator. -/
def splitChar (sep : Char) : List Char → List (List Char)
  | [] => [[]]
  | c :: rest =>
      let r := splitChar sep rest
      if c = sep then [] :: r
      else
        match r with
        | g :: gs => (c :: g) :: gs
        | [] => [[c]]

/-- Python `s.split(':')`. -/
def pySplitColon (s : String) : List String :=
  (splitChar ':' s.toList).map String.mk

/-- Python `int(s)`: optional surrounding whitespace, optional sign, decimal
digits; raises (here: `none`) otherwise. -/
def pyInt (s : String) : Option Int :=
  let cs := ((s.toList.dropWhile isSpaceChar).reverse.dropWhile isSpaceChar).reverse
  match cs with
  | '-' :: ds =>
      if ds ≠ [] && ds.all isDigitChar then some (-(natOfDigits ds : Int)) else none
  | '+' :: ds =>
      if ds ≠ [] && ds.all isDigitChar then some (natOfDigits ds : Int) else none
  | ds =>
      if ds ≠ [] && ds.all isDigitChar then some (natOfDigits ds : Int) else none

/-- Python f-string `{n:02d}` for a natural number. -/
def pad2 (n : Nat) : String :=
  if n < 10 then "0" ++ toString n else toString n

/-- Python f-string `{n:02d}` for an `int` (a negative value keeps its sign
and is at least two characters wide already in the reachable cases). -/
def pad2Int (n : Int) : String :=
  if 0 ≤ n && n < 10 then "0" ++ toString n else toString n

/-- Canonical 24-hour `HH:MM` rendering, as produced by the bot's own
formatting (`f"{hour:02d}:{minute:02d}"`) and by `strftime("%H:%M")`. -/
def hhmmStr (h m : Nat) : String := pad2 h ++ ":" ++ pad2 m

/-! ## `bot/commands.py`: `format_time_ampm` and `parse_time_ampm` -/

/-- `format_time_ampm` (`bot/commands.py`): convert 24-hour `HH:MM` to
12-hour `H:MM AM|PM`; on any exception the input is returned unchanged. -/
def format_time_ampm (time_24h : String) : String :=
  match pySplitColon time_24h with
  | [hs, ms] =>
      match pyInt hs, pyInt ms with
      | some hour, some minute =>
          let period := if hour < 12 then "AM" else "PM"
          let h := hour % 12
          let h := if h = 0 then 12 else h
          toString h ++ ":" ++ pad2Int minute ++ " " ++ period
      | _, _ => time_24h
  | _ => time_24h

/-- The alternative `(AM|PM)` of the regex in `parse_time_ampm`, applied at
the current position; `re.match` only anchors the start, so trailing
characters are ignored. -/
def matchPeriod : List Char → Option String
  | 'A' :: 'M' :: _ => some "AM"
  | 'P' :: 'M' :: _ => some "PM"
  | _ => none

/-- The `:(\d{2})\s*(AM|PM)` tail of the regex in `parse_time_ampm`. -/
def matchAfterHour : List Char → Option (Nat × String)
  | ':' :: d1 :: d2 :: rest =>
      if isDigitChar d1 && isDigitChar d2 then
        (matchPeriod (rest.dropWhile isSpaceChar)).map
          (fun p => (10 * digitVal d1 + digitVal d2, p))
      else none
  | _ => none

/-- `re.match(r"(\d{1,2}):(\d{2})\s*(AM|PM)", s)`: the greedy `\d{1,2}`
tries two digits first and backtracks to one. -/
def matchTime : List Char → Option (Nat × Nat × String)
  | c1 :: rest =>
      if isDigitChar c1 then
        match rest with
        | c2 :: rest2 =>
            if isDigitChar c2 then
              match matchAfterHour rest2 with
              | some (m, p) => some (10 * digitVal c1 + digitVal c2, m, p)
              | none => (matchAfterHour rest).map (fun mp => (digitVal c1, mp.1, mp.2))
            else (matchAfterHour rest).map (fun mp => (digitVal c1, mp.1, mp.2))
        | [] => none
      else none
  | [] => none

/-- `parse_time_ampm` (`bot/commands.py`): convert 12-hour `H:MM AM|PM` to
24-hour `HH:MM`; `None` when the regex does not match.  Note the source
performs no range validation on the matched hour and minute. -/
def parse_time_ampm (time_ampm : String) : Option String :=
  match matchTime (pyUpper time_ampm).toList with
  | none => none
  | some (hour, minute, period) =>
      let hour :=
        if period = "PM" && hour < 12 then hour + 12
        else if period = "AM" && hour = 12 then 0
        else hour
      some (pad2 hour ++ ":" ++ pad2 minute)

/-! ## `bot/commands.py`: conversation state constants and callback data -/

def TYPING_TIME : Int := 2

def TYPING_DAY : Int := 3

def CONFIRM_SCHEDULE : Int := 4

/-- `ConversationHandler.END` in python-telegram-bot. -/
def END_CONVERSATION : Int := -1

def DAILY_SCHEDULE : String := "daily_schedule"

def WEEKLY_SCHEDULE : String := "weekly_schedule"

def CONFIRM_SCHEDULE_UPDATE : String := "confirm_schedule"

def CANCEL_SCHEDULE_UPDATE : String := "cancel_schedule"

/-! ## `bot/commands.py`: `time_input` and `day_input` -/

/-- `re.match(r"^\d{1,2}:\d{2}$", s)` together with the subsequent
`map(int, ...)` of `time_input`'s bare 24-hour branch. -/
def match24h : List Char → Option (Nat × Nat)
  | [a, ':', b, c] =>
      if isDigitChar a && isDigitChar b && isDigitChar c then
        some (digitVal a, 10 * digitVal b + digitVal c)
      else none
  | [a, a2, ':', b, c] =>
      if isDigitChar a && isDigitChar a2 && isDigitChar b && isDigitChar c then
        some (10 * digitVal a + digitVal a2, 10 * digitVal b + digitVal c)
      else none
  | _ => none

/-- The `time_24h` local of `time_input` (`bot/commands.py`): strip the
text, try `parse_time_ampm`, fall back to bare 24-hour `HH:MM` with range
checks. -/
def time_24h_of_input (text : String) : Option String :=
  let s := pyStrip text
  match parse_time_ampm s with
  | some t => some t
  | none =>
      match match24h s.toList with
      | some (h, m) => if h < 24 && m < 60 then some (hhmmStr h m) else none
      | none => none

/-- `time_input` (`bot/commands.py`): on parse failure re-prompt and stay in
`TYPING_TIME`; on success store the normalized time and advance to
`TYPING_DAY` (weekly) or to the confirmation state (daily).  Returns the
stored time (if any) and the next conversation state. -/
def time_input (schedule_type : String) (text : String) : Option String × Int :=
  match time_24h_of_input text with
  | none => (none, TYPING_TIME)
  | some t =>
      (some t, if schedule_type = WEEKLY_SCHEDULE then TYPING_DAY else CONFIRM_SCHEDULE)

/-- The inline day-selection keyboard of `time_input` (`bot/commands.py`):
label and callback data of every button, in source order. -/
def dayKeyboard : List (String × String) :=
  [("Monday", "1"), ("Tuesday", "2"), ("Wednesday", "3"),
   ("Thursday", "4"), ("Friday", "5"), ("Saturday", "6"), ("Sunday", "0")]

/-- `day_names` of `show_schedule_confirmation` (`bot/commands.py`). -/
def day_names : List String :=
  ["Sunday", "Monday", "Tuesday", "Wednesday", "Thursday", "Friday", "Saturday"]

/-- `day_input` (`bot/commands.py`): store `int(query.data)` and advance to
the confirmation state. -/
def day_input (callback_data : String) : Option Int × Int :=
  (pyInt callback_data, CONFIRM_SCHEDULE)

/-! ## `bot/database.py`: the settings document and `update_schedule_settings`

The MongoDB `settings` collection holds a single document; optional fields
model keys that may be absent from the document.  `connected = false` models
the `self._settings_collection is None` state (connection never
established). -/

/-- The `messages` sub-document of the settings document. -/
structure Messages where
  daily : Option String
  weekly : Option String
  deriving DecidableEq

/-- The single settings document. -/
structure SettingsDoc where
  daily_time : Option String
  weekly_time : Option String
  weekly_day : Option Int
  messages : Option Messages
  deriving DecidableEq

/-- State of the settings collection: connection flag and the (at most one)
stored document. -/
structure SettingsState where
  connected : Bool
  doc : Option SettingsDoc
  deriving DecidableEq

/-- The `update_data` dictionary built by `update_schedule_settings`. -/
structure UpdateData where
  daily_time : Option String
  weekly_day : Option Int
  weekly_time : Option String
  messages : Option Messages
  deriving DecidableEq

/-- MongoDB `$set` of the provided fields on an existing document. -/
def applySet (d : SettingsDoc) (u : UpdateData) : SettingsDoc :=
  { daily_time := match u.daily_time with | some t => some t | none => d.daily_time
    weekly_time := match u.weekly_time with | some t => some t | none => d.weekly_time
    weekly_day := match u.weekly_day with | some v => some v | none => d.weekly_day
    messages := match u.messages with | some ms => some ms | none => d.messages }

/-- MongoDB upsert when no document matches: the new document holds exactly
the `$set` fields. -/
def docOfUpdate (u : UpdateData) : SettingsDoc :=
  { daily_time := u.daily_time
    weekly_time := u.weekly_time
    weekly_day := u.weekly_day
    messages := u.messages }

/-- The `update_data` dictionary as populated by `update_schedule_settings`
(`bot/database.py`): the three plain fields when provided, and the
`messages` key — the currently stored messages dict with the provided
messages merged in — whenever a message argument is given. -/
def buildUpdateData (st : SettingsState) (daily_time : Option String)
    (weekly_day : Option Int) (weekly_time : Option String)
    (daily_message : Option String) (weekly_message : Option String) : UpdateData :=
  let u : UpdateData :=
    { daily_time := daily_time, weekly_day := weekly_day,
      weekly_time := weekly_time, messages := none }
  if daily_message.isSome || weekly_message.isSome then
    let cur : Messages :=
      match st.doc with
      | some d => d.messages.getD ⟨none, none⟩
      | none => ⟨none, none⟩
    let cur := match daily_message with
      | some m => { cur with daily := some m }
      | none => cur
    let cur := match weekly_message with
      | some m => { cur with weekly := some m }
      | none => cur
    { u with messages := some cur }
  else u

/-- `update_schedule_settings` (`bot/database.py`): build `update_data` from
the provided keyword arguments, then — when it is non-empty —
`update_one({}, {"$set": update_data}, upsert=True)`.  Returns the new
state and the boolean result: `True` iff `modified_count > 0 or
upserted_id`. -/
def update_schedule_settings (st : SettingsState) (daily_time : Option String)
    (weekly_day : Option Int) (weekly_time : Option String)
    (daily_message : Option String) (weekly_message : Option String) :
    SettingsState × Bool :=
  if !st.connected then (st, false)
  else
    let u := buildUpdateData st daily_time weekly_day weekly_time daily_message weekly_message
    if u = (⟨none, none, none, none⟩ : UpdateData) then (st, false)
    else
      match st.doc with
      | some d =>
          let d' := applySet d u
          (⟨st.connected, some d'⟩, d' != d)
      | none => (⟨st.connected, some (docOfUpdate u)⟩, true)

/-- The dictionary returned by `get_schedule_settings` (`bot/database.py`):
`none` models the empty dict (connection missing or no document); otherwise
the three fields with their in-database defaults applied. -/
structure ScheduleSettings where
  daily_time : String
  weekly_time : String
  weekly_day : Int
  deriving DecidableEq

/-- `get_schedule_settings` (`bot/database.py`). -/
def get_schedule_settings (st : SettingsState) : Option ScheduleSettings :=
  if st.connected then
    match st.doc with
    | some d =>
        some ⟨d.daily_time.getD "09:00", d.weekly_time.getD "10:00",
              d.weekly_day.getD 1⟩
    | none => none
  else none

/-- `get_announcement_messages` (`bot/database.py`): the `messages`
sub-document, or the empty dict (`⟨none, none⟩`) when unavailable. -/
def get_announcement_messages (st : SettingsState) : Messages :=
  if st.connected then
    match st.doc with
    | some d => d.messages.getD ⟨none, none⟩
    | none => ⟨none, none⟩
  else ⟨none, none⟩

/-! ## `bot/scheduler.py`: job registry, `setup_scheduler`, `reschedule_jobs`

The job queue is a list of named jobs; `none` models
`application.job_queue is None` (the JobQueue extra not installed). -/

/-- Trigger policy of a registered job: `run_repeating(interval)` for the
daily poll, `run_daily(time, days)` for the weekly announcement. -/
inductive TriggerPolicy
  | pollEvery (intervalSeconds : Nat)
  | fireAtWeekdayAndTime (days : List Int) (hour : Nat) (minute : Nat)
  deriving DecidableEq

structure Job where
  name : String
  policy : TriggerPolicy
  deriving DecidableEq

/-- `hour, minute = map(int, s.split(":"))` followed by
`datetime.time(hour=hour, minute=minute)`: `none` models the exception path
(wrong arity, non-integer part, or out-of-range values). -/
def parseTimeField (s : String) : Option (Nat × Nat) :=
  match pySplitColon s with
  | [hs, ms] =>
      match pyInt hs, pyInt ms with
      | some h, some m =>
          if 0 ≤ h && h < 24 && 0 ≤ m && m < 60 then some (h.toNat, m.toNat)
          else none
      | _, _ => none
  | _ => none

/-- `setup_scheduler` (`bot/scheduler.py`): read the schedule settings and
register the two announcement jobs; each registration is wrapped in its own
`try`, so a malformed stored time skips only that job.  Returns the job
queue after the call. -/
def setup_scheduler (st : SettingsState) (jq : Option (List Job)) :
    Option (List Job) :=
  match jq with
  | none => none
  | some jobs =>
      let settings := get_schedule_settings st
      let daily_time := ((settings.map (fun s => s.daily_time)).getD "09:00")
      let jobs :=
        match parseTimeField daily_time with
        | some _ => jobs ++ [⟨"daily_announcement", .pollEvery 60⟩]
        | none => jobs
      let weekly_time := ((settings.map (fun s => s.weekly_time)).getD "10:00")
      let weekly_day := ((settings.map (fun s => s.weekly_day)).getD 1)
      let jobs :=
        match parseTimeField weekly_time with
        | some hm =>
            jobs ++ [⟨"weekly_announcement", .fireAtWeekdayAndTime [weekly_day] hm.1 hm.2⟩]
        | none => jobs
      some jobs

def isAnnouncementJob (j : Job) : Bool :=
  j.name = "daily_announcement" || j.name = "weekly_announcement"

/-- `reschedule_jobs` (`bot/scheduler.py`): remove every job named
`daily_announcement` or `weekly_announcement`, run `setup_scheduler`, return
`True`; a missing job queue raises inside the `try` and returns `False`
with nothing changed. -/
def reschedule_jobs (st : SettingsState) (jq : Option (List Job)) :
    Option (List Job) × Bool :=
  match jq with
  | none => (none, false)
  | some jobs =>
      (setup_scheduler st (some (jobs.filter (fun j => !isAnnouncementJob j))), true)

/-- `reschedule_jobs` iterated `n` times on the same settings state. -/
def rescheduleN (st : SettingsState) : Nat → Option (List Job) → Option (List Job)
  | 0, jq => jq
  | n + 1, jq => (reschedule_jobs st (rescheduleN st n jq)).1

/-! ## Wall-clock model

Instants at minute resolution: minutes elapsed since some Sunday 00:00.
The weekday enumeration is therefore fixed: 0=Sunday .. 6=Saturday,
matching the day-selection keyboard of `bot/commands.py`. -/

def weekdayOf (t : Nat) : Nat := t / 1440 % 7

def hourOf (t : Nat) : Nat := t % 1440 / 60

def minuteOf (t : Nat) : Nat := t % 60

/-- `datetime.datetime.now().strftime("%H:%M")`. -/
def strftimeHM (t : Nat) : String := hhmmStr (hourOf t) (minuteOf t)

/-- Modelled from the spec: the firing rule of the weekly trigger installed
through the external scheduling facility (`JobQueue.run_daily`, an external
collaborator not part of the repository sources).  Per the spec's
*FireAtWeekdayAndTime(day, time)* policy, the job fires at an instant iff
the instant's calendar weekday (fixed enumeration 0=Sunday..6=Saturday) is
listed in `days` and its time of day equals the trigger's hour and
minute; the trigger automatically re-arms every week. -/
def weeklyTriggerFires (days : List Int) (h m : Nat) (t : Nat) : Bool :=
  days.contains ((weekdayOf t : Nat) : Int) && hourOf t == h && minuteOf t == m

/-- `daily_announcement` (`bot/scheduler.py`): on each 60-second tick,
re-read the schedule settings, compare the current wall-clock `HH:MM`
against the stored daily time, and on exact match re-read the announcement
messages and hand the daily message (with its fallback default) to
`send_scheduled_announcement`.  Returns the text passed on via
`context.job.data`, or `none` when the tick does not fire. -/
def daily_announcement (st : SettingsState) (now : Nat) : Option String :=
  let scheduled := ((get_schedule_settings st).map (fun s => s.daily_time)).getD "09:00"
  if strftimeHM now = scheduled then
    some ((get_announcement_messages st).daily.getD "Daily community reminder!")
  else none

/-! ## `bot/utils.py`: the broadcast fan-out -/

/-- A document of the `users` collection; `user_id` is `none` when the field
is absent (`user.get("user_id")` then yields Python `None`). -/
structure UserRec where
  user_id : Option Int
  deriving DecidableEq

/-- Python truthiness of `user.get("user_id")`: falsy when the field is
missing or `0`. -/
def truthyId : Option Int → Bool
  | some n => n != 0
  | none => false

/-- One iteration of the fan-out loop shared by `broadcast_message` and
`send_scheduled_announcement` (`bot/utils.py`).  The accumulator carries
`(success_count, failure_count, trace of transport attempts)`; `sendOk`
tells, per recipient, whether `bot.send_message` returns or raises. -/
def broadcastStep (sendOk : Int → Bool) (acc : Nat × Nat × List Int)
    (user : UserRec) : Nat × Nat × List Int :=
  match user.user_id with
  | some uid =>
      if uid != 0 then
        if sendOk uid then (acc.1 + 1, acc.2.1, acc.2.2 ++ [uid])
        else (acc.1, acc.2.1 + 1, acc.2.2 ++ [uid])
      else acc
  | none => acc

/-- The `for user in users` loop of `bot/utils.py`. -/
def broadcastLoop (sendOk : Int → Bool) (users : List UserRec) :
    Nat × Nat × List Int :=
  users.foldl (broadcastStep sendOk) (0, 0, [])

/-- `broadcast_message` (`bot/utils.py`): fan the message out to all users
and return `(success_count, failure_count)`; the trace of attempted
recipients is exposed alongside. -/
def broadcast_message (sendOk : Int → Bool) (users : List UserRec) :
    (Nat × Nat) × List Int :=
  let r := broadcastLoop sendOk users
  ((r.1, r.2.1), r.2.2)

/-- `send_scheduled_announcement` (`bot/utils.py`): return early when the
job carries no data or an empty text; otherwise run the same fan-out loop. -/
def send_scheduled_announcement (sendOk : Int → Bool) (jobData : Option String)
    (users : List UserRec) : Nat × Nat × List Int :=
  match jobData with
  | none => (0, 0, [])
  | some text => if text = "" then (0, 0, []) else broadcastLoop sendOk users

/-! ## `bot/commands.py`: `schedule_confirmation` -/

/-- The relevant `context.user_data` entries when the confirmation callback
runs (each may be absent). -/
structure ConvData where
  schedule_type : Option String
  announcement_message : Option String
  time : Option String
  day : Option Int
  deriving DecidableEq

/-- The four user-visible outcomes of `schedule_confirmation`. -/
inductive ConfirmOutcome
  | cancelled
  | updated
  | savedNotActive
  | notSaved
  deriving DecidableEq

/-- The reply text edited into the confirmation message for each outcome
(emoji prefixes of the source omitted). -/
def outcomeText : ConfirmOutcome → String
  | .cancelled => "Schedule update cancelled."
  | .updated => "Schedule settings updated successfully!"
  | .savedNotActive =>
      "Settings saved but failed to reschedule jobs. Please restart the bot to apply changes."
  | .notSaved => "Failed to update schedule settings. Please try again later."

/-- The `update_schedule_settings` call `schedule_confirmation` makes for
the current draft: daily drafts write `daily_time` and `daily_message`,
anything else writes `weekly_time`, `weekly_day` and `weekly_message`. -/
def updateForDraft (ud : ConvData) (st : SettingsState) : SettingsState × Bool :=
  let msg := ud.announcement_message.getD ""
  let time_24h := ud.time.getD ""
  if ud.schedule_type = some DAILY_SCHEDULE then
    update_schedule_settings st (some time_24h) none none (some msg) none
  else
    update_schedule_settings st none ud.day (some time_24h) none (some msg)

/-- `schedule_confirmation` (`bot/commands.py`): on cancel, end; otherwise
write the draft through `update_schedule_settings` and, on success, attempt
`reschedule_jobs`; the three non-cancel outcomes are distinct user-visible
messages.  Returns (outcome, settings state, job queue, conversation
state). -/
def schedule_confirmation (query_data : String) (ud : ConvData)
    (st : SettingsState) (jq : Option (List Job)) :
    ConfirmOutcome × SettingsState × Option (List Job) × Int :=
  if query_data = CANCEL_SCHEDULE_UPDATE then (.cancelled, st, jq, END_CONVERSATION)
  else
    let r := updateForDraft ud st
    if r.2 then
      let rq := reschedule_jobs r.1 jq
      if rq.2 then (.updated, r.1, rq.1, END_CONVERSATION)
      else (.savedNotActive, r.1, rq.1, END_CONVERSATION)
    else (.notSaved, r.1, jq, END_CONVERSATION)

/-! ## Helper lemmas -/

/-- Closed form of the fan-out loop: final counts and attempt trace. -/
theorem broadcastLoop_closed (sendOk : Int → Bool) (users : List UserRec) :
    ∀ acc : Nat × Nat × List Int,
      users.foldl (broadcastStep sendOk) acc =
        (acc.1 + users.countP (fun u => truthyId u.user_id && sendOk (u.user_id.getD 0)),
         acc.2.1 + users.countP (fun u => truthyId u.user_id && !sendOk (u.user_id.getD 0)),
         acc.2.2 ++ (users.filter (fun u => truthyId u.user_id)).map
           (fun u => u.user_id.getD 0)) := by
  induction users with
  | nil => intro acc; simp
  | cons u us ih =>
      intro acc
      rcases u with ⟨_ | uid⟩
      · simp only [List.foldl_cons, broadcastStep, truthyId, List.countP_cons,
          List.filter_cons, Bool.false_and, cond_false, if_neg, ih]
        simp [truthyId]
      · by_cases h0 : uid = 0
        · subst h0
          simp only [List.foldl_cons, broadcastStep]
          simp only [show ((0 : Int) != 0) = false from rfl, Bool.false_eq_true, if_false,
            ih, List.countP_cons, List.filter_cons]
          simp [truthyId]
        · by_cases hok : sendOk uid
          · simp only [List.foldl_cons, broadcastStep]
            simp only [show (uid != 0) = true from by simp [h0], if_true, hok, ih,
              List.countP_cons, List.filter_cons]
            simp [truthyId, h0, hok]
            omega
          · simp only [List.foldl_cons, broadcastStep]
            simp only [show (uid != 0) = true from by simp [h0], if_true,
              if_neg hok, ih, List.countP_cons, List.filter_cons]
            simp [truthyId, h0, hok]
            omega

/-- Splitting a guarded count along a second Boolean predicate. -/
theorem countP_and_split {α : Type} (q p : α → Bool) (l : List α) :
    l.countP (fun a => q a && p a) + l.countP (fun a => q a && !p a) = l.countP q := by
  induction l with
  | nil => simp
  | cons a l ih =>
      simp only [List.countP_cons]
      cases hq : q a <;> cases hp : p a <;> simp [hq, hp] <;> omega

/-! ## Claim theorems -/

/-- C1: For every recipient list in which each record carries a truthy
`user_id`, `broadcast_message` returns `(successCount, failureCount) =
(K, M)` where `K` is the number of recipients whose transport send succeeds
and `M` the number whose send raises, and the transport is invoked for
every recipient in list order — a raising send never prevents the attempt
for a later recipient. -/
theorem broadcast_counts_success_failure (sendOk : Int → Bool)
    (users : List UserRec) (hall : ∀ u ∈ users, truthyId u.user_id = true) :
    broadcast_message sendOk users =
      ((users.countP (fun u => sendOk (u.user_id.getD 0)),
        users.countP (fun u => !sendOk (u.user_id.getD 0))),
       users.map (fun u => u.user_id.getD 0)) := by
  unfold broadcast_message broadcastLoop
  rw [broadcastLoop_closed]
  simp only [Nat.zero_add, List.nil_append, Prod.mk.injEq]
  refine ⟨⟨?_, ?_⟩, ?_⟩
  · exact List.countP_congr (fun u hu => by rw [hall u hu, Bool.true_and])
  · exact List.countP_congr (fun u hu => by rw [hall u hu, Bool.true_and])
  · rw [List.filter_eq_self.mpr hall]

/-- C1 witness: three reachable recipients of which the second raises. -/
theorem broadcast_counts_success_failure_witness :
    (∀ u ∈ [(⟨some 1⟩ : UserRec), ⟨some 2⟩, ⟨some 3⟩], truthyId u.user_id = true) ∧
    broadcast_message (fun n => n != 2) [(⟨some 1⟩ : UserRec), ⟨some 2⟩, ⟨some 3⟩] =
      (([(⟨some 1⟩ : UserRec), ⟨some 2⟩, ⟨some 3⟩].countP
          (fun u => u.user_id.getD 0 != 2),
        [(⟨some 1⟩ : UserRec), ⟨some 2⟩, ⟨some 3⟩].countP
          (fun u => !(u.user_id.getD 0 != 2))),
       [(⟨some 1⟩ : UserRec), ⟨some 2⟩, ⟨some 3⟩].map (fun u => u.user_id.getD 0)) :=
  ⟨by decide, broadcast_counts_success_failure (fun n => n != 2) _ (by decide)⟩

/-- C9: `broadcast_message` makes a delivery attempt exactly for the records
with a truthy `user_id` (missing and zero ids are skipped and counted in
neither tally), so `successCount + failureCount` equals the number of
truthy-id records; `send_scheduled_announcement` either returns without any
attempt (no job data or empty text) or runs the very same loop. -/
theorem broadcast_skips_falsy_ids (sendOk : Int → Bool) (users : List UserRec)
    (jobData : Option String) :
    ((broadcast_message sendOk users).1.1 + (broadcast_message sendOk users).1.2
        = users.countP (fun u => truthyId u.user_id)) ∧
    ((broadcast_message sendOk users).2
        = (users.filter (fun u => truthyId u.user_id)).map (fun u => u.user_id.getD 0)) ∧
    (send_scheduled_announcement sendOk jobData users = (0, 0, []) ∨
      send_scheduled_announcement sendOk jobData users = broadcastLoop sendOk users) := by
  refine ⟨?_, ?_, ?_⟩
  · unfold broadcast_message broadcastLoop
    rw [broadcastLoop_closed]
    simp only [Nat.zero_add]
    exact countP_and_split (fun u => truthyId u.user_id)
      (fun u => sendOk (u.user_id.getD 0)) users
  · unfold broadcast_message broadcastLoop
    rw [broadcastLoop_closed]
    simp
  · unfold send_scheduled_announcement
    rcases jobData with _ | text
    · exact Or.inl rfl
    · by_cases ht : text = ""
      · exact Or.inl (by simp [ht])
      · exact Or.inr (by simp [ht])

/-- The textbook 12-hour to 24-hour conversion, for hours 1..12:
12 AM is hour 0, 12 PM stays 12, other PM hours gain 12. -/
def to24 (h12 : Nat) (isPM : Bool) : Nat :=
  if isPM then (if h12 < 12 then h12 + 12 else h12)
  else (if h12 = 12 then 0 else h12)

/-- The 12-hour display string `H:MM AM|PM` (unpadded hour). -/
def display12 (h12 m : Nat) (isPM : Bool) : String :=
  toString h12 ++ ":" ++ pad2 m ++ " " ++ (if isPM then "PM" else "AM")

set_option maxHeartbeats 4000000 in
/-- C2: for every valid 24-hour time, `format_time_ampm` followed by
`parse_time_ampm` returns the original `HH:MM` string, and for every valid
12-hour display `H:MM AM|PM`, `parse_time_ampm` followed by
`format_time_ampm` returns the original display — the two conversions are
exact inverses on valid minute-resolution times, covering the boundary
cases `00:00 ↔ 12:00 AM` and `12:00 ↔ 12:00 PM`. -/
theorem time_display_roundtrip :
    (∀ (h : Fin 24) (m : Fin 60),
        parse_time_ampm (format_time_ampm (hhmmStr h m)) = some (hhmmStr h m)) ∧
    (∀ (h12 : Fin 12) (m : Fin 60) (isPM : Bool),
        (parse_time_ampm (display12 (h12.val + 1) m isPM)).map format_time_ampm
          = some (display12 (h12.val + 1) m isPM)) := by
  constructor
  · decide
  · decide

set_option maxHeartbeats 4000000 in
/-- C3 (amended): `time_input` accepts every valid 12-hour time
`H:MM AM|PM` (storing its 24-hour normalization and advancing to the day
or confirmation state), accepts every valid bare 24-hour `HH:MM`, rejects
out-of-range bare 24-hour input such as `"25:00"`, and on any rejection
stays in the time-entry state storing nothing. -/
theorem time_input_validation :
    (∀ (h12 : Fin 12) (m : Fin 60) (isPM : Bool),
        time_input WEEKLY_SCHEDULE (display12 (h12.val + 1) m isPM)
            = (some (hhmmStr (to24 (h12.val + 1) isPM) m), TYPING_DAY) ∧
        time_input DAILY_SCHEDULE (display12 (h12.val + 1) m isPM)
            = (some (hhmmStr (to24 (h12.val + 1) isPM) m), CONFIRM_SCHEDULE)) ∧
    (∀ (h : Fin 24) (m : Fin 60),
        time_input DAILY_SCHEDULE (hhmmStr h m) = (some (hhmmStr h m), CONFIRM_SCHEDULE)) ∧
    time_input DAILY_SCHEDULE "25:00" = (none, TYPING_TIME) ∧
    time_input WEEKLY_SCHEDULE "25:00" = (none, TYPING_TIME) ∧
    (∀ (ty s : String), (time_input ty s).1 = none → (time_input ty s).2 = TYPING_TIME) := by
  refine ⟨by decide, by decide, by decide, by decide, ?_⟩
  intro ty s
  unfold time_input
  rcases h : time_24h_of_input s with _ | t
  · intro; rfl
  · intro hc; exact absurd hc (by simp)

/-- C3 witness: a malformed time is rejected and the conversation stays in
the time-entry state with no stored time. -/
theorem time_input_validation_witness :
    (time_input DAILY_SCHEDULE "noon").1 = none ∧
    (time_input DAILY_SCHEDULE "noon").2 = TYPING_TIME :=
  ⟨by decide, time_input_validation.2.2.2.2 DAILY_SCHEDULE "noon" (by decide)⟩

/-- C3 counterexample: the claim says an input is accepted exactly when it
is a valid 12- or 24-hour time, but `"25:61 AM"` — hour 25 and minute 61
are both out of range — is accepted by `time_input`, which stores the
nonsense time `"25:61"` and advances to the confirmation state instead of
rejecting. -/
theorem time_input_accepts_out_of_range :
    time_input DAILY_SCHEDULE "25:61 AM" = (some "25:61", CONFIRM_SCHEDULE) ∧
    ¬(25 < 24 ∧ 61 < 60) := by
  exact ⟨by decide, by decide⟩

/-- A daily-only write leaves a present document's weekly fields alone. -/
theorem update_daily_frame (st : SettingsState) (d : SettingsDoc) (t msg : String)
    (hdoc : st.doc = some d) :
    ∃ d', (update_schedule_settings st (some t) none none (some msg) none).1.doc = some d' ∧
      d'.weekly_time = d.weekly_time ∧ d'.weekly_day = d.weekly_day ∧
      (d'.messages.getD ⟨none, none⟩).weekly = (d.messages.getD ⟨none, none⟩).weekly := by
  by_cases hc : st.connected
  · simp only [update_schedule_settings, buildUpdateData, hc, Bool.not_true,
      Bool.false_eq_true, if_false, hdoc, Option.isSome_some, Bool.true_or, if_true,
      UpdateData.mk.injEq, ne_eq, Option.some_ne_none, and_false, false_and,
      true_and, and_true]
    simp only [applySet]
    exact ⟨_, rfl, rfl, rfl, rfl⟩
  · have hc' : st.connected = false := Bool.eq_false_iff.mpr hc
    unfold update_schedule_settings
    rw [hc']
    exact ⟨d, hdoc, rfl, rfl, rfl⟩

/-- A weekly-only write leaves a present document's daily fields alone. -/
theorem update_weekly_frame (st : SettingsState) (d : SettingsDoc) (t msg : String)
    (day : Option Int) (hdoc : st.doc = some d) :
    ∃ d', (update_schedule_settings st none day (some t) none (some msg)).1.doc = some d' ∧
      d'.daily_time = d.daily_time ∧
      (d'.messages.getD ⟨none, none⟩).daily = (d.messages.getD ⟨none, none⟩).daily := by
  by_cases hc : st.connected
  · simp only [update_schedule_settings, buildUpdateData, hc, Bool.not_true,
      Bool.false_eq_true, if_false, hdoc, Option.isSome_some, Bool.or_true, if_true,
      UpdateData.mk.injEq, ne_eq, Option.some_ne_none, and_false, false_and,
      true_and, and_true]
    simp only [applySet]
    exact ⟨_, rfl, rfl, rfl⟩
  · have hc' : st.connected = false := Bool.eq_false_iff.mpr hc
    unfold update_schedule_settings
    rw [hc']
    exact ⟨d, hdoc, rfl, rfl⟩

/-- The settings state `schedule_confirmation` hands back on confirm is the
one produced by its `update_schedule_settings` call. -/
theorem schedule_confirmation_state (ud : ConvData) (st : SettingsState)
    (jq : Option (List Job)) :
    (schedule_confirmation CONFIRM_SCHEDULE_UPDATE ud st jq).2.1 = (updateForDraft ud st).1 := by
  unfold schedule_confirmation
  rw [if_neg (by decide)]
  by_cases h2 : (updateForDraft ud st).2 <;>
    by_cases h3 : (reschedule_jobs (updateForDraft ud st).1 jq).2 <;>
      simp [h2, h3]

/-- C4: a confirmed daily-schedule update (writing `daily_time` and the
daily message) leaves `weekly_time`, `weekly_day` and the weekly message of
the stored settings document unchanged, and a confirmed weekly-schedule
update (writing `weekly_time`, `weekly_day` and the weekly message) leaves
`daily_time` and the daily message unchanged. -/
theorem confirmed_update_frame (ud : ConvData) (st : SettingsState)
    (jq : Option (List Job)) (d : SettingsDoc) (hdoc : st.doc = some d) :
    (ud.schedule_type = some DAILY_SCHEDULE →
      ∃ d', (schedule_confirmation CONFIRM_SCHEDULE_UPDATE ud st jq).2.1.doc = some d' ∧
        d'.weekly_time = d.weekly_time ∧ d'.weekly_day = d.weekly_day ∧
        (d'.messages.getD ⟨none, none⟩).weekly = (d.messages.getD ⟨none, none⟩).weekly) ∧
    (ud.schedule_type ≠ some DAILY_SCHEDULE →
      ∃ d', (schedule_confirmation CONFIRM_SCHEDULE_UPDATE ud st jq).2.1.doc = some d' ∧
        d'.daily_time = d.daily_time ∧
        (d'.messages.getD ⟨none, none⟩).daily = (d.messages.getD ⟨none, none⟩).daily) := by
  rw [schedule_confirmation_state]
  constructor
  · intro hty
    unfold updateForDraft
    rw [if_pos hty]
    exact update_daily_frame st d _ _ hdoc
  · intro hty
    unfold updateForDraft
    rw [if_neg hty]
    exact update_weekly_frame st d _ _ _ hdoc

/-- C4 witness: a concrete confirmed daily update against the default
settings document keeps the weekly fields. -/
theorem confirmed_update_frame_witness :
    ((⟨true, some ⟨some "09:00", some "10:00", some 1,
          some ⟨some "A", some "B"⟩⟩⟩ : SettingsState).doc
        = some ⟨some "09:00", some "10:00", some 1, some ⟨some "A", some "B"⟩⟩) ∧
    ((⟨some DAILY_SCHEDULE, some "New daily", some "08:15", none⟩ : ConvData).schedule_type
        = some DAILY_SCHEDULE) ∧
    ∃ d', (schedule_confirmation CONFIRM_SCHEDULE_UPDATE
        ⟨some DAILY_SCHEDULE, some "New daily", some "08:15", none⟩
        ⟨true, some ⟨some "09:00", some "10:00", some 1, some ⟨some "A", some "B"⟩⟩⟩
        (some [])).2.1.doc = some d' ∧
      d'.weekly_time = (⟨some "09:00", some "10:00", some 1,
          some ⟨some "A", some "B"⟩⟩ : SettingsDoc).weekly_time ∧
      d'.weekly_day = (⟨some "09:00", some "10:00", some 1,
          some ⟨some "A", some "B"⟩⟩ : SettingsDoc).weekly_day ∧
      (d'.messages.getD ⟨none, none⟩).weekly
        = ((⟨some "09:00", some "10:00", some 1,
            some ⟨some "A", some "B"⟩⟩ : SettingsDoc).messages.getD ⟨none, none⟩).weekly :=
  ⟨rfl, rfl,
    (confirmed_update_frame ⟨some DAILY_SCHEDULE, some "New daily", some "08:15", none⟩
      ⟨true, some ⟨some "09:00", some "10:00", some 1, some ⟨some "A", some "B"⟩⟩⟩
      (some []) ⟨some "09:00", some "10:00", some 1, some ⟨some "A", some "B"⟩⟩ rfl).1 rfl⟩

/-- `setup_scheduler` on a live queue always yields a live queue. -/
theorem setup_scheduler_some (st : SettingsState) (jobs : List Job) :
    ∃ j', setup_scheduler st (some jobs) = some j' := by
  unfold setup_scheduler
  exact ⟨_, rfl⟩

/-- Iterated rescheduling on a live queue keeps the queue live. -/
theorem rescheduleN_some (st : SettingsState) (jobs : List Job) :
    ∀ k : Nat, ∃ j', rescheduleN st k (some jobs) = some j' := by
  intro k
  induction k with
  | zero => exact ⟨jobs, rfl⟩
  | succ n ih =>
      obtain ⟨j', hj⟩ := ih
      obtain ⟨j'', hj''⟩ :=
        setup_scheduler_some st (j'.filter (fun j => !isAnnouncementJob j))
      refine ⟨j'', ?_⟩
      show (reschedule_jobs st (rescheduleN st n (some jobs))).1 = some j''
      rw [hj]
      simp only [reschedule_jobs]
      exact hj''

/-- One `reschedule_jobs` call on a live queue with parseable stored times
succeeds and leaves exactly one job of each announcement name. -/
theorem reschedule_once (st : SettingsState) (jobs : List Job)
    (hd : (parseTimeField (((get_schedule_settings st).map
        (fun s => s.daily_time)).getD "09:00")).isSome = true)
    (hw : (parseTimeField (((get_schedule_settings st).map
        (fun s => s.weekly_time)).getD "10:00")).isSome = true) :
    ∃ jobs', reschedule_jobs st (some jobs) = (some jobs', true) ∧
      jobs'.countP (fun j => j.name == "daily_announcement") = 1 ∧
      jobs'.countP (fun j => j.name == "weekly_announcement") = 1 := by
  obtain ⟨dhm, hdm⟩ := Option.isSome_iff_exists.mp hd
  obtain ⟨whm, hwm⟩ := Option.isSome_iff_exists.mp hw
  unfold reschedule_jobs setup_scheduler
  simp only [hdm, hwm]
  refine ⟨_, rfl, ?_, ?_⟩
  · rw [List.countP_append, List.countP_append]
    have h0 : (jobs.filter (fun j => !isAnnouncementJob j)).countP
        (fun j => j.name == "daily_announcement") = 0 := by
      rw [List.countP_eq_zero]
      intro j hj
      have hmem := (List.mem_filter.mp hj).2
      simp only [isAnnouncementJob, Bool.not_or] at hmem
      simp only [beq_iff_eq]
      intro hname
      simp [hname] at hmem
    simp [h0]
  · rw [List.countP_append, List.countP_append]
    have h0 : (jobs.filter (fun j => !isAnnouncementJob j)).countP
        (fun j => j.name == "weekly_announcement") = 0 := by
      rw [List.countP_eq_zero]
      intro j hj
      have hmem := (List.mem_filter.mp hj).2
      simp only [isAnnouncementJob, Bool.not_or] at hmem
      simp only [beq_iff_eq]
      intro hname
      simp [hname] at hmem
    simp [h0]

/-- C5: for every `n ≥ 1`, calling `reschedule_jobs` `n` times in sequence —
starting from any live job-queue state, with stored times that parse — leaves
the registry with exactly one job named `daily_announcement` and exactly one
named `weekly_announcement`: no duplicates and no stale leftovers. -/
theorem reschedule_exactly_one_each (st : SettingsState) (jobs : List Job) (n : Nat)
    (hn : 1 ≤ n)
    (hd : (parseTimeField (((get_schedule_settings st).map
        (fun s => s.daily_time)).getD "09:00")).isSome = true)
    (hw : (parseTimeField (((get_schedule_settings st).map
        (fun s => s.weekly_time)).getD "10:00")).isSome = true) :
    ∃ jobs', rescheduleN st n (some jobs) = some jobs' ∧
      jobs'.countP (fun j => j.name == "daily_announcement") = 1 ∧
      jobs'.countP (fun j => j.name == "weekly_announcement") = 1 := by
  cases n with
  | zero => omega
  | succ k =>
      obtain ⟨jk, hjk⟩ := rescheduleN_some st jobs k
      obtain ⟨j', h1, h2, h3⟩ := reschedule_once st jk hd hw
      refine ⟨j', ?_, h2, h3⟩
      show (reschedule_jobs st (rescheduleN st k (some jobs))).1 = some j'
      rw [hjk, h1]

/-- C5 witness: three reschedules starting from a queue already holding a
duplicate-prone announcement job and a stray job. -/
theorem reschedule_exactly_one_each_witness :
    (1 ≤ 3) ∧
    ((parseTimeField ((((get_schedule_settings ⟨true, none⟩).map
        (fun s => s.daily_time)).getD "09:00"))).isSome = true) ∧
    ((parseTimeField ((((get_schedule_settings ⟨true, none⟩).map
        (fun s => s.weekly_time)).getD "10:00"))).isSome = true) ∧
    ∃ jobs', rescheduleN ⟨true, none⟩ 3 (some [⟨"daily_announcement", .pollEvery 60⟩,
        ⟨"stray", .pollEvery 5⟩]) = some jobs' ∧
      jobs'.countP (fun j => j.name == "daily_announcement") = 1 ∧
      jobs'.countP (fun j => j.name == "weekly_announcement") = 1 :=
  ⟨by decide, by decide, by decide,
    reschedule_exactly_one_each ⟨true, none⟩ _ 3 (by decide) (by decide) (by decide)⟩

/-- The weekly trigger installed for day list `[1]` at 14:30 fires exactly
at minute 2310 of each week (Monday 14:30 under the 0=Sunday enumeration),
once per week. -/
theorem weekly_fires_char :
    ∀ t : Nat, weeklyTriggerFires [1] 14 30 t = decide (t % 10080 = 2310) := by
  intro t
  rw [Bool.eq_iff_iff]
  simp only [weeklyTriggerFires, weekdayOf, hourOf, minuteOf, List.contains_cons,
    List.contains_nil, Bool.or_false, Bool.and_eq_true, beq_iff_eq, decide_eq_true_eq]
  constructor
  · rintro ⟨⟨h1, h2⟩, h3⟩
    omega
  · intro h
    refine ⟨⟨?_, ?_⟩, ?_⟩ <;> omega

/-- C6: the day-selection keyboard labels Monday with callback data `"1"`
under the fixed enumeration 0=Sunday..6=Saturday; selecting it stores
`weekly_day = 1`, entering `"2:30 PM"` stores `weekly_time = "14:30"`, and
the confirmed weekly update re-registers the weekly job with trigger
*FireAtWeekdayAndTime([1], 14:30)*, which fires exactly once per week, at
minute `2310 = 1·1440 + 14·60 + 30` of the week — the next Monday 14:30 —
and re-arms for the following Monday (the firing rule of the external
`run_daily` facility is modelled from the spec with the same fixed weekday
enumeration, independent of any platform numbering). -/
theorem weekly_monday_fires :
    time_input WEEKLY_SCHEDULE "2:30 PM" = (some "14:30", TYPING_DAY) ∧
    ("Monday", "1") ∈ dayKeyboard ∧
    day_names[1]? = some "Monday" ∧
    day_input "1" = (some 1, CONFIRM_SCHEDULE) ∧
    (schedule_confirmation CONFIRM_SCHEDULE_UPDATE
        ⟨some WEEKLY_SCHEDULE, some "Weekly update", some "14:30", some 1⟩
        ⟨true, some ⟨some "09:00", some "10:00", some 1,
          some ⟨some "Daily community reminder!", some "Weekly community update!"⟩⟩⟩
        (some [])) =
      (.updated,
       ⟨true, some ⟨some "09:00", some "14:30", some 1,
          some ⟨some "Daily community reminder!", some "Weekly update"⟩⟩⟩,
       some [⟨"daily_announcement", .pollEvery 60⟩,
             ⟨"weekly_announcement", .fireAtWeekdayAndTime [1] 14 30⟩],
       END_CONVERSATION) ∧
    (∀ t : Nat, weeklyTriggerFires [1] 14 30 t = decide (t % 10080 = 2310)) ∧
    2310 = 1 * 1440 + 14 * 60 + 30 := by
  refine ⟨by decide, by decide, by decide, by decide, by decide, weekly_fires_char, by decide⟩

/-- `natOfDigits` is a left inverse of two-digit padding. -/
theorem natOfDigits_pad2 : ∀ n : Fin 100, natOfDigits (pad2 n.val).data = n.val := by decide

/-- Two-digit padding yields exactly two characters below 100. -/
theorem pad2_data_len : ∀ n : Fin 100, (pad2 n.val).data.length = 2 := by decide

theorem pad2_inj {a b : Nat} (ha : a < 100) (hb : b < 100)
    (h : (pad2 a).data = (pad2 b).data) : a = b := by
  have h1 : natOfDigits (pad2 a).data = a := natOfDigits_pad2 ⟨a, ha⟩
  have h2 : natOfDigits (pad2 b).data = b := natOfDigits_pad2 ⟨b, hb⟩
  rw [h] at h1
  omega

/-- `HH:MM` rendering is injective below 100 in each component. -/
theorem hhmmStr_inj {h1 m1 h2 m2 : Nat} (hh1 : h1 < 100) (hm1 : m1 < 100)
    (hh2 : h2 < 100) (hm2 : m2 < 100) (he : hhmmStr h1 m1 = hhmmStr h2 m2) :
    h1 = h2 ∧ m1 = m2 := by
  have hd : (pad2 h1).data ++ (':' :: (pad2 m1).data)
      = (pad2 h2).data ++ (':' :: (pad2 m2).data) := by
    have hc := congrArg String.data he
    unfold hhmmStr at hc
    rw [String.data_append, String.data_append, String.data_append,
      String.data_append, List.append_assoc, List.append_assoc] at hc
    exact hc
  have hlen : (pad2 h1).data.length = (pad2 h2).data.length := by
    rw [pad2_data_len ⟨h1, hh1⟩, pad2_data_len ⟨h2, hh2⟩]
  obtain ⟨eh, et⟩ := List.append_inj hd hlen
  have em : (pad2 m1).data = (pad2 m2).data := by injection et
  exact ⟨pad2_inj hh1 hh2 eh, pad2_inj hm1 hm2 em⟩

/-- C7: on a tick of the daily poll job, the broadcast fires exactly when
the current wall-clock time truncated to the minute equals the stored
`daily_time`, and the message handed to the fan-out is the daily message
read from the settings state passed in at fire time (with its in-code
default), not a value captured at install time — `daily_announcement`
re-reads the store on every tick. -/
theorem daily_fire_iff_time_match (st : SettingsState) (d : SettingsDoc)
    (hq mq now : Nat) (hconn : st.connected = true) (hdoc : st.doc = some d)
    (htime : d.daily_time = some (hhmmStr hq mq)) (hh : hq < 24) (hm : mq < 60) :
    daily_announcement st now =
      if hourOf now = hq ∧ minuteOf now = mq then
        some ((d.messages.getD ⟨none, none⟩).daily.getD "Daily community reminder!")
      else none := by
  unfold daily_announcement get_schedule_settings get_announcement_messages
  rw [hconn]
  simp only [if_true, hdoc, htime, Option.map_some', Option.getD_some]
  by_cases hcond : hourOf now = hq ∧ minuteOf now = mq
  · have hstr : strftimeHM now = hhmmStr hq mq := by
      unfold strftimeHM
      rw [hcond.1, hcond.2]
    rw [if_pos hstr, if_pos hcond]
  · have hstr : ¬(strftimeHM now = hhmmStr hq mq) := by
      intro he
      have hb1 : hourOf now < 100 := by unfold hourOf; omega
      have hb2 : minuteOf now < 100 := by unfold minuteOf; omega
      exact hcond (hhmmStr_inj hb1 hb2 (by omega) (by omega) he)
    rw [if_neg hstr, if_neg hcond]

/-- C7 witness: with stored daily time `09:30`, the tick at minute 570
(= 09:30) fires with the stored message. -/
theorem daily_fire_iff_time_match_witness :
    ((⟨true, some ⟨some (hhmmStr 9 30), none, none, some ⟨some "Msg", none⟩⟩⟩ :
        SettingsState).connected = true) ∧ (9 < 24) ∧ (30 < 60) ∧
    daily_announcement
        ⟨true, some ⟨some (hhmmStr 9 30), none, none, some ⟨some "Msg", none⟩⟩⟩ 570 =
      if hourOf 570 = 9 ∧ minuteOf 570 = 30 then
        some (((⟨some (hhmmStr 9 30), none, none, some ⟨some "Msg", none⟩⟩ :
            SettingsDoc).messages.getD ⟨none, none⟩).daily.getD "Daily community reminder!")
      else none :=
  ⟨rfl, by decide, by decide,
    daily_fire_iff_time_match
      ⟨true, some ⟨some (hhmmStr 9 30), none, none, some ⟨some "Msg", none⟩⟩⟩
      ⟨some (hhmmStr 9 30), none, none, some ⟨some "Msg", none⟩⟩ 9 30 570
      rfl rfl rfl (by decide) (by decide)⟩

/-- A write that reports failure leaves the settings state untouched. -/
theorem update_unchanged_or_true (st : SettingsState) (a : Option String) (b : Option Int)
    (c : Option String) (e f : Option String) :
    (update_schedule_settings st a b c e f).1 = st ∨
      (update_schedule_settings st a b c e f).2 = true := by
  rcases st with ⟨conn, doc⟩
  cases conn
  · exact Or.inl rfl
  · by_cases hu : buildUpdateData ⟨true, doc⟩ a b c e f = (⟨none, none, none, none⟩ : UpdateData)
    · left
      simp [update_schedule_settings, hu]
    · rcases doc with _ | d
      · right
        simp [update_schedule_settings, hu]
      · by_cases hd : applySet d (buildUpdateData ⟨true, some d⟩ a b c e f) = d
        · left
          simp [update_schedule_settings, hu, hd]
        · right
          simp [update_schedule_settings, hu, bne_iff_ne, hd]

theorem update_false_unchanged (st : SettingsState) (a : Option String) (b : Option Int)
    (c : Option String) (e f : Option String)
    (hf : (update_schedule_settings st a b c e f).2 = false) :
    (update_schedule_settings st a b c e f).1 = st := by
  rcases update_unchanged_or_true st a b c e f with h | h
  · exact h
  · rw [h] at hf; cases hf

theorem updateForDraft_false_unchanged (ud : ConvData) (st : SettingsState)
    (hf : (updateForDraft ud st).2 = false) : (updateForDraft ud st).1 = st := by
  unfold updateForDraft at hf ⊢
  by_cases hty : ud.schedule_type = some DAILY_SCHEDULE
  · rw [if_pos hty] at hf ⊢
    exact update_false_unchanged _ _ _ _ _ _ hf
  · rw [if_neg hty] at hf ⊢
    exact update_false_unchanged _ _ _ _ _ _ hf

/-- C8: on confirmation, a failed settings write yields the `notSaved`
outcome with the stored configuration left exactly as it was, while a
successful write followed by a failed job re-installation (job queue
unavailable) yields the distinct `savedNotActive` outcome; the two
user-visible messages differ, and both paths end the conversation normally
(`END_CONVERSATION`) rather than crashing. -/
theorem confirm_failure_outcomes_distinct (ud : ConvData) (st : SettingsState)
    (jq : Option (List Job)) :
    ((updateForDraft ud st).2 = false →
      schedule_confirmation CONFIRM_SCHEDULE_UPDATE ud st jq =
        (.notSaved, st, jq, END_CONVERSATION)) ∧
    ((updateForDraft ud st).2 = true →
      schedule_confirmation CONFIRM_SCHEDULE_UPDATE ud st none =
        (.savedNotActive, (updateForDraft ud st).1, none, END_CONVERSATION)) ∧
    ConfirmOutcome.notSaved ≠ ConfirmOutcome.savedNotActive ∧
    outcomeText ConfirmOutcome.notSaved ≠ outcomeText ConfirmOutcome.savedNotActive := by
  refine ⟨?_, ?_, by decide, by decide⟩
  · intro hf
    unfold schedule_confirmation
    rw [if_neg (by decide)]
    simp only [hf, Bool.false_eq_true, if_false]
    rw [updateForDraft_false_unchanged ud st hf]
  · intro ht
    unfold schedule_confirmation
    rw [if_neg (by decide)]
    simp only [ht, if_true]
    rfl

/-- C8 witness: a dead settings store produces `notSaved` with the state
untouched; a live store with a dead job queue produces `savedNotActive`. -/
theorem confirm_failure_outcomes_distinct_witness :
    ((updateForDraft ⟨some DAILY_SCHEDULE, some "M", some "08:00", none⟩ ⟨false, none⟩).2
        = false ∧
      schedule_confirmation CONFIRM_SCHEDULE_UPDATE
          ⟨some DAILY_SCHEDULE, some "M", some "08:00", none⟩ ⟨false, none⟩ (some []) =
        (.notSaved, ⟨false, none⟩, some [], END_CONVERSATION)) ∧
    ((updateForDraft ⟨some DAILY_SCHEDULE, some "M", some "08:00", none⟩ ⟨true, none⟩).2
        = true ∧
      schedule_confirmation CONFIRM_SCHEDULE_UPDATE
          ⟨some DAILY_SCHEDULE, some "M", some "08:00", none⟩ ⟨true, none⟩ none =
        (.savedNotActive,
         (updateForDraft ⟨some DAILY_SCHEDULE, some "M", some "08:00", none⟩ ⟨true, none⟩).1,
         none, END_CONVERSATION)) :=
  ⟨⟨by decide,
    (confirm_failure_outcomes_distinct ⟨some DAILY_SCHEDULE, some "M", some "08:00", none⟩
      ⟨false, none⟩ (some [])).1 (by decide)⟩,
   ⟨by decide,
    (confirm_failure_outcomes_distinct ⟨some DAILY_SCHEDULE, some "M", some "08:00", none⟩
      ⟨true, none⟩ none).2.1 (by decide)⟩⟩

/-- C10: `update_schedule_settings` reports `True` only when the write
actually changed or inserted the stored document; when the document exists
and every provided field equals its stored value, the `$set` is a no-op
(`modified_count == 0`, nothing upserted), the call returns `False`, and the
confirmation flow reports the `notSaved` failure to the operator even though
the stored configuration already matches what was requested. -/
theorem noop_update_reports_failure (st : SettingsState) (d : SettingsDoc) (mm : Messages)
    (t msg : String) (day : Option Int) (jq : Option (List Job))
    (hconn : st.connected = true) (hdoc : st.doc = some d)
    (ht : d.daily_time = some t) (hms : d.messages = some mm) (hdm : mm.daily = some msg) :
    update_schedule_settings st (some t) none none (some msg) none = (st, false) ∧
    schedule_confirmation CONFIRM_SCHEDULE_UPDATE ⟨some DAILY_SCHEDULE, some msg, some t, day⟩
        st jq = (.notSaved, st, jq, END_CONVERSATION) ∧
    (∀ a b c e f, (update_schedule_settings st a b c e f).2 = true →
        (update_schedule_settings st a b c e f).1.doc ≠ st.doc) := by
  rcases st with ⟨conn, doc⟩
  rcases d with ⟨dt, wt, wd, ms⟩
  rcases mm with ⟨md, mw⟩
  simp only at hconn hdoc ht hms hdm
  subst hconn hdoc ht hms hdm
  have h1 : update_schedule_settings ⟨true, some ⟨some t, wt, wd, some ⟨some msg, mw⟩⟩⟩
      (some t) none none (some msg) none
      = (⟨true, some ⟨some t, wt, wd, some ⟨some msg, mw⟩⟩⟩, false) := by
    simp [update_schedule_settings, buildUpdateData, applySet]
  refine ⟨h1, ?_, ?_⟩
  · unfold schedule_confirmation updateForDraft
    rw [if_neg (by decide)]
    simp only [Option.getD_some, if_true]
    rw [h1]
    simp
  · intro a b c e f htrue hdoceq
    unfold update_schedule_settings at htrue hdoceq
    by_cases hu : buildUpdateData ⟨true, some ⟨some t, wt, wd, some ⟨some msg, mw⟩⟩⟩ a b c e f
        = (⟨none, none, none, none⟩ : UpdateData)
    · simp [hu] at htrue
    · simp only [Bool.not_true, Bool.false_eq_true, if_false, if_neg hu] at htrue hdoceq
      rw [Option.some.injEq] at hdoceq
      rw [hdoceq] at htrue
      simp at htrue

/-- C10 witness: confirming a daily schedule identical to the stored one
(time `09:00`, message `"A"`) changes nothing and is reported as a failure. -/
theorem noop_update_reports_failure_witness :
    ((⟨true, some ⟨some "09:00", none, none, some ⟨some "A", none⟩⟩⟩ :
        SettingsState).connected = true) ∧
    update_schedule_settings ⟨true, some ⟨some "09:00", none, none, some ⟨some "A", none⟩⟩⟩
        (some "09:00") none none (some "A") none
      = (⟨true, some ⟨some "09:00", none, none, some ⟨some "A", none⟩⟩⟩, false) ∧
    schedule_confirmation CONFIRM_SCHEDULE_UPDATE
        ⟨some DAILY_SCHEDULE, some "A", some "09:00", none⟩
        ⟨true, some ⟨some "09:00", none, none, some ⟨some "A", none⟩⟩⟩ (some []) =
      (.notSaved, ⟨true, some ⟨some "09:00", none, none, some ⟨some "A", none⟩⟩⟩,
       some [], END_CONVERSATION) :=
  ⟨rfl,
    (noop_update_reports_failure
      ⟨true, some ⟨some "09:00", none, none, some ⟨some "A", none⟩⟩⟩
      ⟨some "09:00", none, none, some ⟨some "A", none⟩⟩ ⟨some "A", none⟩
      "09:00" "A" none (some []) rfl rfl rfl rfl rfl).1,
    (noop_update_reports_failure
      ⟨true, some ⟨some "09:00", none, none, some ⟨some "A", none⟩⟩⟩
      ⟨some "09:00", none, none, some ⟨some "A", none⟩⟩ ⟨some "A", none⟩
      "09:00" "A" none (some []) rfl rfl rfl rfl rfl).2.1⟩

end CommunityBot
